import Mathlib

/-!
Verification of the joystick control card of `hass-valetudo-control`
(`dist/valetudo-control-card.js`), shallowly embedded in Lean 4.

JS numbers are modelled as exact rationals `ℚ` (every constant and
comparison involved is exact in decimal, so binary-float rounding never
decides a branch), times in milliseconds as `ℤ`.  JS `Math.round x` is
`⌊x + 1/2⌋`, which is Mathlib's `round` on `ℚ`.  The Home Assistant
service layer is the external boundary: a remote invocation is recorded
in the result rather than performed, and its fate is an explicit
`SendOutcome` parameter.
-/

namespace ValetudoCard

/-- `this.deadzone = 0.15` (constructor, line 191). -/
def deadzone : ℚ := 15 / 100

/-- `this.speed = 1.0` (constructor, line 190). -/
def speed : ℚ := 1

/-- `this.angleEpsilon = 3.0` (constructor, line 192). -/
def angleEpsilon : ℚ := 3

/-- `this.velocityEpsilon = 0.02` (constructor, line 193). -/
def velocityEpsilon : ℚ := 2 / 100

/-- `this._commandIntervalMs = 250` (constructor, line 195). -/
def commandIntervalMs : ℤ := 250

/-- The mutable fields of the card that the control loop touches.
`hassAvailable` models `this.hass` being non-null, `configEntitySet`
models `this.config && this.config.entity` being set. -/
structure CardState where
  hassAvailable : Bool
  configEntitySet : Bool
  /-- `_isManualControlEnabled` -/
  enabled : Bool
  /-- `_isManualControlStateKnown` -/
  stateKnown : Bool
  /-- `_isTogglingManualControl` -/
  toggling : Bool
  /-- `_lastWaterUsagePreset` -/
  lastWaterUsagePreset : Option String
  /-- `_lastSent.angle` -/
  lastAngle : Option ℚ
  /-- `_lastSent.velocity` -/
  lastVelocity : Option ℚ
  /-- `_lastSendTime` -/
  lastSendTime : ℤ
  /-- `_isDragging` -/
  isDragging : Bool
  /-- `_commandInterval !== null` -/
  commandIntervalActive : Bool
  /-- `_velocity` -/
  velocity : ℚ
  /-- `_angle` -/
  angle : ℚ
deriving DecidableEq

/-- Fate of one `hass.callService('valetudo_control', 'send_command', ...)`
invocation (line 653).  The call is not awaited by `_sendCommand`, so only
a synchronous throw (`syncError`) is visible to its `try/catch`; a
returned promise that later rejects is `asyncError`, indistinguishable
from `ok` inside `_sendCommand` itself. -/
inductive SendOutcome
  | ok
  | syncError
  | asyncError
deriving DecidableEq

/-- `numVelocity = Math.max(-1.0, Math.min(1.0, numVelocity))` (line 604). -/
def clampVelocity (v : ℚ) : ℚ := max (-1) (min 1 v)

/-- `Math.round(numVelocity * 1000) / 1000` (line 607). -/
def roundTo3 (v : ℚ) : ℚ := (round (v * 1000) : ℤ) / 1000

/-- `Math.round(numAngle * 10) / 10` (line 608). -/
def roundTo1 (v : ℚ) : ℚ := (round (v * 10) : ℤ) / 10

/-- `if (Math.abs(numVelocity) < this.velocityEpsilon) numVelocity = 0`
(lines 612-614). -/
def snapVelocity (v : ℚ) : ℚ := if |v| < velocityEpsilon then 0 else v

/-- The whole velocity pipeline of `_sendCommand` (lines 604-614):
clamp to `[-1,1]`, round to 3 decimals, snap sub-epsilon to `0`. -/
def processedVelocity (v : ℚ) : ℚ := snapVelocity (roundTo3 (clampVelocity v))

/-- The angle pipeline of `_sendCommand` (line 608): round to 1 decimal. -/
def processedAngle (a : ℚ) : ℚ := roundTo1 a

/-- `angleChanged` (line 621): `this._lastSent.angle === null ||
Math.abs(numAngle - this._lastSent.angle) > this.angleEpsilon`. -/
def angleChanged (lastAngle : Option ℚ) (numAngle : ℚ) : Prop :=
  match lastAngle with
  | none => True
  | some la => angleEpsilon < |numAngle - la|

instance instDecAngleChanged : ∀ (o : Option ℚ) (a : ℚ), Decidable (angleChanged o a)
  | none, _ => .isTrue trivial
  | some la, a => inferInstanceAs (Decidable (angleEpsilon < |a - la|))

/-- `velocityChanged` (line 622): `this._lastSent.velocity === null ||
Math.abs(numVelocity - this._lastSent.velocity) > this.velocityEpsilon`. -/
def velocityChanged (lastVelocity : Option ℚ) (numVelocity : ℚ) : Prop :=
  match lastVelocity with
  | none => True
  | some lv => velocityEpsilon < |numVelocity - lv|

instance instDecVelocityChanged :
    ∀ (o : Option ℚ) (v : ℚ), Decidable (velocityChanged o v)
  | none, _ => .isTrue trivial
  | some lv, v => inferInstanceAs (Decidable (velocityEpsilon < |v - lv|))

/-- `shouldSend` (lines 625-630): first command, periodic refresh, or a
significant change in angle or velocity. -/
def shouldSend (s : CardState) (numVelocity numAngle : ℚ) (now : ℤ) : Prop :=
  s.lastAngle = none
    ∨ commandIntervalMs ≤ now - s.lastSendTime
    ∨ angleChanged s.lastAngle numAngle
    ∨ velocityChanged s.lastVelocity numVelocity

instance instDecShouldSend (s : CardState) (nv na : ℚ) (now : ℤ) :
    Decidable (shouldSend s nv na now) :=
  inferInstanceAs (Decidable (_ ∨ _ ∨ _ ∨ _))

/-- The redundant-zero filter (lines 635-638): `numVelocity === 0 &&
this._lastSent.velocity === 0 && !angleChanged && numAngle === 0`. -/
def zeroSuppressed (s : CardState) (numVelocity numAngle : ℚ) : Prop :=
  numVelocity = 0 ∧ s.lastVelocity = some 0
    ∧ ¬ angleChanged s.lastAngle numAngle ∧ numAngle = 0

instance instDecZeroSuppressed (s : CardState) (nv na : ℚ) :
    Decidable (zeroSuppressed s nv na) :=
  inferInstanceAs (Decidable (_ ∧ _ ∧ _ ∧ _))

/-- `_sendCommand(velocity, angle)` (lines 581-663), at wall-clock time
`now` (`new Date().getTime()`, line 617).  Returns the new state and the
payload of the `send_command` service invocation, `none` when no
invocation was made.  The `isNaN` guard (lines 598-601) is vacuous over
`ℚ`, which has no NaN.  On `syncError` the `catch` returns before the
cache update (lines 654-658); otherwise the cache is updated
(lines 661-662) — the service call is not awaited, so a later promise
rejection (`asyncError`) cannot stop the update. -/
def sendCommand (s : CardState) (velocity angle : ℚ) (now : ℤ)
    (outcome : SendOutcome) : CardState × Option (ℚ × ℚ) :=
  if s.hassAvailable = false then (s, none)
  else if s.enabled = false then (s, none)
  else if zeroSuppressed s (processedVelocity velocity) (processedAngle angle) then
    (s, none)
  else if ¬ shouldSend s (processedVelocity velocity) (processedAngle angle) now then
    (s, none)
  else if outcome = .syncError then
    (s, some (processedVelocity velocity, processedAngle angle))
  else
    ({ s with lastAngle := some (processedAngle angle),
              lastVelocity := some (processedVelocity velocity),
              lastSendTime := now },
     some (processedVelocity velocity, processedAngle angle))

/-- The conjunction of all four send conditions of `_sendCommand`. -/
def sendAdmitted (s : CardState) (v a : ℚ) (now : ℤ) : Prop :=
  s.hassAvailable = true ∧ s.enabled = true
    ∧ ¬ zeroSuppressed s (processedVelocity v) (processedAngle a)
    ∧ shouldSend s (processedVelocity v) (processedAngle a) now

instance instDecSendAdmitted (s : CardState) (v a : ℚ) (now : ℤ) :
    Decidable (sendAdmitted s v a now) :=
  inferInstanceAs (Decidable (_ ∧ _ ∧ _ ∧ _))

/-- `_resetJoystick(sendStopCommand = true)` (lines 665-684).  The DOM
handle repositioning has no behavioural content; the displayed vector is
reset only when not dragging (lines 675-678), then `_sendCommand(0, 0)`
is issued when requested (lines 681-683). -/
def resetJoystick (sendStopCommand : Bool) (s : CardState) (now : ℤ)
    (outcome : SendOutcome) : CardState × Option (ℚ × ℚ) :=
  let s1 := if s.isDragging = false then { s with velocity := 0, angle := 0 } else s
  if sendStopCommand = true then sendCommand s1 0 0 now outcome else (s1, none)

/-- `_handleJoystickEnd` (lines 370-392): ignore when not dragging, else
clear the dragging flag, cancel the resend interval and reset the
joystick (which issues the stop command through `_sendCommand`). -/
def handleJoystickEnd (s : CardState) (now : ℤ) (outcome : SendOutcome) :
    CardState × Option (ℚ × ℚ) :=
  if s.isDragging = false then (s, none)
  else
    resetJoystick true
      { s with isDragging := false, commandIntervalActive := false } now outcome

/-- The `updated()` lifecycle callback (lines 222-271) restricted to a
change of `_isManualControlEnabled`.  If manual control was disabled
mid-drag: stop dragging, cancel the interval and reset (first stop
dispatch); execution then falls through and, since `_isDragging` is now
false and the property changed, resets again (second stop dispatch).
If still dragging (manual control was enabled), return early; otherwise a
single reset.  Returns the transmitted payloads. -/
def updatedManualControlChanged (s : CardState) (now : ℤ)
    (o1 o2 : SendOutcome) : CardState × List (ℚ × ℚ) :=
  if s.enabled = false ∧ s.isDragging = true then
    let r1 := resetJoystick true
      { s with isDragging := false, commandIntervalActive := false } now o1
    let r2 := resetJoystick true r1.1 now o2
    (r2.1, r1.2.toList ++ r2.2.toList)
  else if s.isDragging = true then (s, [])
  else
    let r := resetJoystick true s now o1
    (r.1, r.2.toList)

/-- A remote invocation issued by the manual-control toggle path. -/
inductive ServiceCall
  | setWaterUsagePreset (preset : String)
  | setManualControlState (enable : Bool)
deriving DecidableEq

/-- `_toggleManualControl` (lines 535-579), success path: set the
toggling indicator, then — when enabling — save the current water-usage
preset (`_getWaterUsagePreset` returns the fixed value `'off'`,
lines 495-511) and disable mopping before requesting the toggle; when
disabling, restore the saved preset (if any, `'off'` is truthy) after
the request.  The local enabled flag is deliberately not updated and the
toggling indicator is not cleared (lines 566-577): the polling mechanism
does both. -/
def toggleManualControl (s : CardState) : CardState × List ServiceCall :=
  if s.hassAvailable = false then (s, [])
  else
    let s1 := { s with toggling := true }
    if s1.enabled = false then
      ({ s1 with lastWaterUsagePreset := some "off" },
       [.setWaterUsagePreset "off", .setManualControlState true])
    else
      match s1.lastWaterUsagePreset with
      | some p => (s1, [.setManualControlState false, .setWaterUsagePreset p])
      | none => (s1, [.setManualControlState false])

/-- A click on the `Enable/Disable Control` button.  While
`_isTogglingManualControl` the rendered button carries the `loading`
class (line 838) whose style sets `pointer-events: none`
(lines 136-139), so the browser never delivers the click and `@click`
(`_toggleManualControl`) does not run. -/
def clickManualControlButton (s : CardState) : CardState × List ServiceCall :=
  if s.toggling = true then (s, [])
  else toggleManualControl s

/-- `_findAndSetManualControlState` (lines 763-800).  The entity-registry
scan (lines 766-778) is abstracted as `observed`: the `on`-state of the
first `switch.*` entity matching the manual-control naming convention,
or `none` when no entity matches.  When the observed value differs from
the cached one, adopt it and clear the toggling indicator
(lines 783-789); when it is unchanged but the indicator is set, clear
the indicator (lines 790-794); when no entity matches,
`_initializeManualControlState` re-runs the same scan over the same
`hass.states` — observing `none` again — and changes nothing
(lines 795-799). -/
def findAndSetManualControlState (s : CardState) (observed : Option Bool) :
    CardState :=
  if s.hassAvailable = false ∨ s.configEntitySet = false then s
  else
    match observed with
    | some v =>
        if s.enabled ≠ v then
          { s with enabled := v, stateKnown := true, toggling := false }
        else if s.toggling = true then { s with toggling := false }
        else s
    | none => s

/-- One tick of the 5-second polling interval (lines 755-760). -/
def pollTick (s : CardState) (observed : Option Bool) : CardState :=
  if s.hassAvailable = false ∨ s.configEntitySet = false then s
  else findAndSetManualControlState s observed

/-- `_normalizeAxisValue` (lines 490-493). -/
def normalizeAxisValue (value : ℚ) : ℚ :=
  max 0 (value - deadzone) / (1 - deadzone)

/-- `_calculateMovement(xAxis, yAxis)` (lines 452-488), returning the
`(velocity, angle)` pair it assigns.  `Math.atan2(·,·) * 180 / Math.PI`
and `Math.sqrt` are transcendental, hence not functions on `ℚ`; they are
abstracted as the oracle parameters `atan2Deg` and `sqrtQ`, which only
the combined-movement branch consults. -/
def calculateMovement (atan2Deg : ℚ → ℚ → ℚ) (sqrtQ : ℚ → ℚ)
    (xAxis yAxis : ℚ) : ℚ × ℚ :=
  let absX := |xAxis|
  let absY := |yAxis|
  if absX < deadzone ∧ absY < deadzone then (0, 0)
  else if deadzone < absY ∧ absX < deadzone * (3 / 2) then
    let velocity := normalizeAxisValue absY * speed
    (clampVelocity (if 0 < yAxis then velocity else -velocity), 0)
  else if deadzone < absX ∧ absY < deadzone * (3 / 2) then
    (0, if 0 < xAxis then 90 else -90)
  else
    let correctedX := if yAxis < 0 then -xAxis else xAxis
    let angle := atan2Deg correctedX yAxis
    let magnitude := sqrtQ (xAxis * xAxis + yAxis * yAxis)
    let velocity := normalizeAxisValue magnitude * speed
    (clampVelocity (if 0 < yAxis then velocity else -velocity), angle)

/-- Oracle instantiations used only to build closed concrete statements;
the inputs of those statements never reach the combined-movement branch,
so the values chosen here are irrelevant. -/
def atan2DegZero : ℚ → ℚ → ℚ := fun _ _ => 0

/-- See `atan2DegZero`. -/
def sqrtZero : ℚ → ℚ := fun _ => 0

/-- The card state right after the constructor (lines 181-205): empty
cache, manual control off, nothing in flight. -/
def initialState (hass configEntity : Bool) : CardState :=
  { hassAvailable := hass
    configEntitySet := configEntity
    enabled := false
    stateKnown := false
    toggling := false
    lastWaterUsagePreset := none
    lastAngle := none
    lastVelocity := none
    lastSendTime := 0
    isDragging := false
    commandIntervalActive := false
    velocity := 0
    angle := 0 }

/-- A fresh enabled session: manual control on, empty send cache. -/
def freshEnabled : CardState :=
  { initialState true true with enabled := true, stateKnown := true }

/-- A mid-session state: manual control on, cache holding `(lv, la)`
sent at time `t`. -/
def sessionState (lv la : ℚ) (t : ℤ) : CardState :=
  { freshEnabled with lastAngle := some la, lastVelocity := some lv,
                      lastSendTime := t }


/-- A state in `PendingToggle` heading for disable: the user pressed the
toggle while enabled, the poll has not yet confirmed, so
`_isTogglingManualControl` is set while `_isManualControlEnabled` is
still `true`. -/
def togglingEnabledState : CardState := { freshEnabled with toggling := true }

/-- A state in `PendingToggle` heading for enable: toggle requested while
disabled, not yet confirmed by a poll. -/
def togglingDisabledState : CardState :=
  { initialState true true with toggling := true }

/-- A drag in progress whose latest transmission was the stop vector
`(0, 0)` at `t = 50` (a drag that started at the centre). -/
def draggingIdleState : CardState :=
  { sessionState 0 0 50 with isDragging := true, commandIntervalActive := true }

/-! ## General facts about the dispatcher -/

theorem sendCommand_snd_spec (s : CardState) (v a : ℚ) (now : ℤ)
    (o : SendOutcome) :
    (sendCommand s v a now o).2 =
      if sendAdmitted s v a now
        then some (processedVelocity v, processedAngle a) else none := by
  simp only [sendCommand, sendAdmitted]
  split_ifs <;> simp_all

theorem sendCommand_fst_spec (s : CardState) (v a : ℚ) (now : ℤ)
    (o : SendOutcome) :
    (sendCommand s v a now o).1 =
      if sendAdmitted s v a now ∧ o ≠ .syncError
        then { s with lastAngle := some (processedAngle a),
                      lastVelocity := some (processedVelocity v),
                      lastSendTime := now }
        else s := by
  simp only [sendCommand, sendAdmitted]
  split_ifs <;> simp_all


theorem sendCommand_sent_payload (s : CardState) (v a : ℚ) (now : ℤ)
    (o : SendOutcome) (h : (sendCommand s v a now o).2 ≠ none) :
    (sendCommand s v a now o).2 =
      some (processedVelocity v, processedAngle a) := by
  rw [sendCommand_snd_spec] at h ⊢
  split_ifs at h ⊢ with hc
  · rfl
  · exact absurd rfl h

theorem sendCommand_sent_admitted (s : CardState) (v a : ℚ) (now : ℤ)
    (o : SendOutcome) (h : (sendCommand s v a now o).2 ≠ none) :
    sendAdmitted s v a now := by
  rw [sendCommand_snd_spec] at h
  split_ifs at h with hc
  · exact hc
  · exact absurd rfl h

theorem sendCommand_not_sent_fst (s : CardState) (v a : ℚ) (now : ℤ)
    (o : SendOutcome) (h : (sendCommand s v a now o).2 = none) :
    (sendCommand s v a now o).1 = s := by
  rw [sendCommand_snd_spec] at h
  rw [sendCommand_fst_spec, if_neg]
  rintro ⟨hadm, -⟩
  rw [if_pos hadm] at h
  exact Option.some_ne_none _ h

theorem sendCommand_of_disabled (s : CardState) (v a : ℚ) (now : ℤ)
    (o : SendOutcome) (h : s.enabled = false) :
    (sendCommand s v a now o).2 = none := by
  rw [sendCommand_snd_spec]
  split_ifs with hc
  · rw [hc.2.1] at h
    exact absurd h (by simp)
  · rfl

/-! ## Bounds on the processed values -/

theorem clampVelocity_mem (v : ℚ) :
    -1 ≤ clampVelocity v ∧ clampVelocity v ≤ 1 :=
  ⟨le_max_left _ _, max_le (by norm_num) (min_le_left _ _)⟩

theorem roundTo3_mem (v : ℚ) (h1 : -1 ≤ v) (h2 : v ≤ 1) :
    -1 ≤ roundTo3 v ∧ roundTo3 v ≤ 1 := by
  have hl : (-1000 : ℤ) ≤ round (v * 1000) := by
    rw [round_eq]
    calc (-1000 : ℤ) = ⌊((-1000 : ℚ) + 1 / 2)⌋ := by norm_num
      _ ≤ ⌊v * 1000 + 1 / 2⌋ := Int.floor_le_floor (by linarith)
  have hr : round (v * 1000) ≤ (1000 : ℤ) := by
    rw [round_eq]
    calc ⌊v * 1000 + 1 / 2⌋ ≤ ⌊(1000 : ℚ) + 1 / 2⌋ := Int.floor_le_floor (by linarith)
      _ = 1000 := by norm_num
  constructor
  · rw [roundTo3, le_div_iff₀ (by norm_num : (0 : ℚ) < 1000)]
    have : ((-1000 : ℤ) : ℚ) ≤ ((round (v * 1000) : ℤ) : ℚ) := by exact_mod_cast hl
    push_cast at this ⊢
    linarith
  · rw [roundTo3, div_le_iff₀ (by norm_num : (0 : ℚ) < 1000)]
    have : ((round (v * 1000) : ℤ) : ℚ) ≤ ((1000 : ℤ) : ℚ) := by exact_mod_cast hr
    push_cast at this ⊢
    linarith

theorem processedVelocity_mem (v : ℚ) :
    -1 ≤ processedVelocity v ∧ processedVelocity v ≤ 1 := by
  obtain ⟨h1, h2⟩ :=
    roundTo3_mem (clampVelocity v) (clampVelocity_mem v).1 (clampVelocity_mem v).2
  unfold processedVelocity snapVelocity
  split_ifs with h
  · norm_num
  · exact ⟨h1, h2⟩

theorem processedVelocity_zero_or_eps (v : ℚ) :
    processedVelocity v = 0 ∨ velocityEpsilon ≤ |processedVelocity v| := by
  unfold processedVelocity snapVelocity
  split_ifs with h
  · exact Or.inl rfl
  · exact Or.inr (not_lt.mp h)


/-! ## Concrete evaluations of the processing pipeline -/

theorem processedVelocity_zero : processedVelocity 0 = 0 := by
  norm_num [processedVelocity, snapVelocity, roundTo3, clampVelocity,
    velocityEpsilon, round_eq]

theorem processedVelocity_half : processedVelocity (1 / 2) = 1 / 2 := by
  norm_num [processedVelocity, snapVelocity, roundTo3, clampVelocity,
    velocityEpsilon, round_eq, abs_of_nonneg]

theorem processedVelocity_centi : processedVelocity (1 / 100) = 0 := by
  norm_num [processedVelocity, snapVelocity, roundTo3, clampVelocity,
    velocityEpsilon, round_eq, abs_of_nonneg]

theorem processedAngle_zero : processedAngle 0 = 0 := by
  norm_num [processedAngle, roundTo1, round_eq]

theorem processedAngle_two : processedAngle 2 = 2 := by
  norm_num [processedAngle, roundTo1, round_eq]

theorem processedAngle_ten : processedAngle 10 = 10 := by
  norm_num [processedAngle, roundTo1, round_eq]

/-! ## Claims -/

/-- Claim C5: for every vector `(velocity, angle)`, including `(0,0)`, if
the send cache is empty (`_lastSent.angle === null`) and manual control
is enabled with a host context available, `_sendCommand` always invokes
the remote `send_command` service, with the processed vector as payload. -/
theorem firstSend_always_transmits (s : CardState) (v a : ℚ) (now : ℤ)
    (o : SendOutcome) (hh : s.hassAvailable = true) (he : s.enabled = true)
    (hc : s.lastAngle = none) :
    (sendCommand s v a now o).2 =
      some (processedVelocity v, processedAngle a) := by
  rw [sendCommand_snd_spec, if_pos]
  refine ⟨hh, he, ?_, Or.inl hc⟩
  rintro ⟨-, -, hna, -⟩
  rw [hc] at hna
  exact hna trivial

/-- Witness for C5: the very first command of a session is transmitted
even when it is the stop vector `(0,0)`. -/
theorem firstSend_always_transmits_witness :
    (sendCommand freshEnabled 0 0 100 .ok).2 = some (0, 0) := by
  have h := firstSend_always_transmits freshEnabled 0 0 100 .ok rfl rfl rfl
  rw [h, processedVelocity_zero, processedAngle_zero]

/-- Claim C10: every payload the dispatcher actually hands to the remote
`send_command` service has a velocity in `[-1, 1]` whose absolute value
is either exactly `0` or at least `velocityEpsilon`: `_sendCommand`
itself clamps, rounds to 3 decimals and snaps sub-epsilon velocities to
`0`, independently of `_calculateMovement`'s own clamping. -/
theorem transmitted_velocity_invariant (s : CardState) (v a : ℚ) (now : ℤ)
    (o : SendOutcome) (p : ℚ × ℚ) (h : (sendCommand s v a now o).2 = some p) :
    -1 ≤ p.1 ∧ p.1 ≤ 1 ∧ (p.1 = 0 ∨ velocityEpsilon ≤ |p.1|) := by
  have hp := sendCommand_sent_payload s v a now o
    (by rw [h]; exact Option.some_ne_none _)
  rw [h] at hp
  obtain rfl := Option.some_injective _ hp
  exact ⟨(processedVelocity_mem v).1, (processedVelocity_mem v).2,
    processedVelocity_zero_or_eps v⟩

/-- Witness for C10, at a concretely transmitted command. -/
theorem transmitted_velocity_invariant_witness :
    -1 ≤ (1 : ℚ) / 2 ∧ (1 : ℚ) / 2 ≤ 1
      ∧ ((1 : ℚ) / 2 = 0 ∨ velocityEpsilon ≤ |(1 : ℚ) / 2|) := by
  have hadm : sendAdmitted freshEnabled (1 / 2) 0 100 := by
    refine ⟨rfl, rfl, ?_, Or.inl rfl⟩
    rintro ⟨-, hlv, -, -⟩
    exact absurd hlv (by simp [freshEnabled, initialState])
  have hsent : (sendCommand freshEnabled (1 / 2) 0 100 .ok).2 = some (1 / 2, 0) := by
    rw [sendCommand_snd_spec, if_pos hadm, processedVelocity_half,
      processedAngle_zero]
  exact transmitted_velocity_invariant freshEnabled (1 / 2) 0 100 .ok
    (1 / 2, 0) hsent

/-- Claim C3: epsilon suppression.  If the cache is non-empty, the
deltas of the compared (rounded, sub-epsilon-snapped) values against the
last-sent values stay within `angleEpsilon` and `velocityEpsilon`, and
fewer than `_commandIntervalMs` milliseconds have elapsed since the last
send, then `_sendCommand` performs no transmission. -/
theorem epsilon_suppression (s : CardState) (v a : ℚ) (now : ℤ)
    (o : SendOutcome) (la lv : ℚ)
    (hla : s.lastAngle = some la) (hlv : s.lastVelocity = some lv)
    (ha : |processedAngle a - la| ≤ angleEpsilon)
    (hv : |processedVelocity v - lv| ≤ velocityEpsilon)
    (ht : now - s.lastSendTime < commandIntervalMs) :
    (sendCommand s v a now o).2 = none := by
  rw [sendCommand_snd_spec, if_neg]
  rintro ⟨-, -, -, hs | hs | hs | hs⟩
  · rw [hla] at hs
    exact Option.some_ne_none _ hs
  · omega
  · rw [hla] at hs
    exact absurd hs (by simpa [angleChanged] using ha)
  · rw [hlv] at hs
    exact absurd hs (by simpa [velocityChanged] using hv)

/-- Witness for C3: a second call 100 ms after a send of `(0,0)`, with
raw vector `(0.01, 2)` (velocity snaps to `0`, angle delta `2 ≤ 3`), is
suppressed. -/
theorem epsilon_suppression_witness :
    (sendCommand (sessionState 0 0 0) (1 / 100) 2 100 .ok).2 = none := by
  refine epsilon_suppression (sessionState 0 0 0) (1 / 100) 2 100 .ok 0 0
    rfl rfl ?_ ?_ (by norm_num [sessionState, freshEnabled, initialState,
      commandIntervalMs])
  · rw [processedAngle_two]
    norm_num [angleEpsilon, abs_of_nonneg]
  · rw [processedVelocity_centi]
    norm_num [velocityEpsilon]


/-- With an empty cache (and host context), every send is admitted. -/
theorem sendAdmitted_of_empty_cache (s : CardState) (v a : ℚ) (now : ℤ)
    (hh : s.hassAvailable = true) (he : s.enabled = true)
    (ha : s.lastAngle = none) : sendAdmitted s v a now := by
  refine ⟨hh, he, ?_, Or.inl ha⟩
  rintro ⟨-, -, hna, -⟩
  rw [ha] at hna
  exact hna trivial

/-- Claim C4 (amended): after a transmitted command, a second call with
the identical raw vector at least `_commandIntervalMs` later transmits
again if and only if the processed vector is not the idle stop vector
`(0, 0)` — for a repeated `(0, 0)` the redundant-zero filter suppresses
the refresh no matter how much time has passed. -/
theorem periodic_refresh_amended (s : CardState) (v a : ℚ) (t0 now : ℤ)
    (o : SendOutcome) (h1 : (sendCommand s v a t0 .ok).2 ≠ none)
    (ht : commandIntervalMs ≤ now - t0) :
    ((sendCommand (sendCommand s v a t0 .ok).1 v a now o).2 ≠ none
      ↔ ¬ (processedVelocity v = 0 ∧ processedAngle a = 0)) := by
  have hadm := sendCommand_sent_admitted s v a t0 .ok h1
  have hh := hadm.1
  have he := hadm.2.1
  rw [sendCommand_fst_spec, if_pos ⟨hadm, by simp⟩, sendCommand_snd_spec]
  by_cases hzero : processedVelocity v = 0 ∧ processedAngle a = 0
  · rw [if_neg]
    · simp [hzero]
    · rintro ⟨-, -, hz, -⟩
      refine hz ⟨hzero.1, ?_, ?_, hzero.2⟩
      · simp [hzero.1]
      · simp [angleChanged, angleEpsilon]
  · rw [if_pos]
    · simp [hzero]
    · refine ⟨hh, he, ?_, Or.inr (Or.inl (by simpa using ht))⟩
      rintro ⟨h01, -, -, h04⟩
      exact hzero ⟨h01, h04⟩

/-- Witness for the amended C4: a repeated `(0.5, 10)` command 300 ms
after the first one is retransmitted. -/
theorem periodic_refresh_amended_witness :
    (sendCommand (sendCommand freshEnabled (1 / 2) 10 0 .ok).1
      (1 / 2) 10 300 .ok).2 ≠ none := by
  have hadm := sendAdmitted_of_empty_cache freshEnabled (1 / 2) 10 0 rfl rfl rfl
  have h1 : (sendCommand freshEnabled (1 / 2) 10 0 .ok).2 ≠ none := by
    rw [sendCommand_snd_spec, if_pos hadm]
    exact Option.some_ne_none _
  refine (periodic_refresh_amended freshEnabled (1 / 2) 10 0 300 .ok h1
    (by norm_num [commandIntervalMs])).mpr ?_
  rw [processedVelocity_half]
  norm_num

/-- Counterexample to C4 as stated: the first call transmits `(0, 0)`,
and the identical stop vector 300 ms later (`≥ 250 ms`) is *not*
retransmitted. -/
theorem periodic_refresh_counterexample :
    (sendCommand freshEnabled 0 0 0 .ok).2 = some (0, 0)
      ∧ (sendCommand (sendCommand freshEnabled 0 0 0 .ok).1 0 0 300 .ok).2
          = none := by
  have hadm := sendAdmitted_of_empty_cache freshEnabled 0 0 0 rfl rfl rfl
  constructor
  · rw [sendCommand_snd_spec, if_pos hadm, processedVelocity_zero,
      processedAngle_zero]
  · rw [sendCommand_fst_spec, if_pos ⟨hadm, by simp⟩, sendCommand_snd_spec,
      if_neg]
    rintro ⟨-, -, hz, -⟩
    refine hz ⟨processedVelocity_zero, ?_, ?_, processedAngle_zero⟩
    · simp [processedVelocity_zero]
    · simp [angleChanged, angleEpsilon]

/-- Claim C2 (amended): the dispatcher transmits only while the host
context is available and the cached `_isManualControlEnabled` flag is
`true`.  The pending-toggle indicator is not consulted at all — while a
disable request is pending (`PendingToggle` with the flag still `true`)
transmissions are not blocked — and the forced stop path passes through
this very gate, so it enjoys no exception. -/
theorem gating_amended (s : CardState) (v a : ℚ) (now : ℤ) (o : SendOutcome)
    (h : (sendCommand s v a now o).2 ≠ none) :
    s.hassAvailable = true ∧ s.enabled = true := by
  obtain ⟨hh, he, -, -⟩ := sendCommand_sent_admitted s v a now o h
  exact ⟨hh, he⟩

/-- Witness for the amended C2, at a concrete transmission. -/
theorem gating_amended_witness :
    freshEnabled.hassAvailable = true ∧ freshEnabled.enabled = true := by
  have hadm := sendAdmitted_of_empty_cache freshEnabled (1 / 2) 0 100 rfl rfl rfl
  refine gating_amended freshEnabled (1 / 2) 0 100 .ok ?_
  rw [sendCommand_snd_spec, if_pos hadm]
  exact Option.some_ne_none _

/-- Counterexample to C2 as stated: in `PendingToggle` (toggle requested
while enabled, poll not yet confirming, `_isTogglingManualControl =
true`), the dispatcher still transmits. -/
theorem gating_counterexample :
    togglingEnabledState.toggling = true
      ∧ (sendCommand togglingEnabledState (1 / 2) 0 0 .ok).2 = some (1 / 2, 0) := by
  refine ⟨rfl, ?_⟩
  have hadm := sendAdmitted_of_empty_cache togglingEnabledState (1 / 2) 0 0
    rfl rfl rfl
  rw [sendCommand_snd_spec, if_pos hadm, processedVelocity_half,
    processedAngle_zero]


/-- `_resetJoystick()` with the default `sendStopCommand = true` is one
regular `_sendCommand(0, 0)` on the (possibly vector-reset) state. -/
theorem resetJoystick_true_eq (s : CardState) (now : ℤ) (o : SendOutcome) :
    resetJoystick true s now o =
      sendCommand
        (if s.isDragging = false then { s with velocity := 0, angle := 0 } else s)
        0 0 now o := rfl

theorem resetJoystick_nodrag (s : CardState) (now : ℤ) (o : SendOutcome)
    (h : s.isDragging = false) :
    resetJoystick true s now o =
      sendCommand { s with velocity := 0, angle := 0 } 0 0 now o := by
  rw [resetJoystick_true_eq, if_pos h]

/-- Claim C1 (amended): ending a drag dispatches the stop vector
`(0, 0)` exactly once, but through the regular `_sendCommand` path:
(a) pointer-up is exactly one regular dispatch of `(0, 0)` on the reset
state, so the transmission is subject to the usual gating and
suppression (and can be suppressed entirely, see the counterexample);
(b) disabling manual control mid-drag performs no transmission at all,
because the stop dispatches hit the now-closed disabled gate. -/
theorem forced_stop_amended (s : CardState) (now : ℤ) (o o1 o2 : SendOutcome) :
    (s.isDragging = true →
      handleJoystickEnd s now o =
        sendCommand
          { s with isDragging := false, commandIntervalActive := false,
                   velocity := 0, angle := 0 }
          0 0 now o)
    ∧ (s.isDragging = true → s.enabled = false →
        (updatedManualControlChanged s now o1 o2).2 = []) := by
  constructor
  · intro hd
    rw [handleJoystickEnd, if_neg (by simp [hd]),
      resetJoystick_nodrag _ now o rfl]
  · intro hd he
    have hreset : ∀ (s2 : CardState) (o3 : SendOutcome), s2.enabled = false →
        s2.isDragging = false →
        resetJoystick true s2 now o3 =
          ({ s2 with velocity := 0, angle := 0 }, none) := by
      intro s2 o3 he2 hd2
      rw [resetJoystick_nodrag s2 now o3 hd2]
      have h2 : (sendCommand { s2 with velocity := 0, angle := 0 } 0 0 now o3).2
          = none :=
        sendCommand_of_disabled _ 0 0 now o3 (by simpa using he2)
      exact Prod.ext (sendCommand_not_sent_fst _ 0 0 now o3 h2) h2
    rw [updatedManualControlChanged, if_pos ⟨he, hd⟩]
    rw [hreset _ o1 (by simpa using he) rfl]
    simp only
    rw [hreset _ o2 (by simpa using he) rfl]
    simp

/-- Witness for the amended C1, applying both halves at a concrete
dragging state. -/
theorem forced_stop_amended_witness :
    (handleJoystickEnd draggingIdleState 100 .ok =
      sendCommand
        { draggingIdleState with
            isDragging := false, commandIntervalActive := false,
            velocity := 0, angle := 0 }
        0 0 100 .ok)
    ∧ (updatedManualControlChanged { draggingIdleState with enabled := false }
        100 .ok .ok).2 = [] :=
  ⟨(forced_stop_amended draggingIdleState 100 .ok .ok .ok).1 rfl,
   (forced_stop_amended { draggingIdleState with enabled := false }
      100 .ok .ok .ok).2 rfl rfl⟩

/-- Counterexample to C1 as stated: a drag whose last transmission was
already the stop vector ends 50 ms later, and the release triggers *no*
transmission of `(0, 0)` (the claim demands exactly one, bypassing the
epsilon suppression). -/
theorem forced_stop_counterexample :
    draggingIdleState.isDragging = true
      ∧ (handleJoystickEnd draggingIdleState 100 .ok).2 = none := by
  refine ⟨by decide, ?_⟩
  rw [handleJoystickEnd, if_neg (by decide), resetJoystick_nodrag _ 100 .ok rfl]
  rw [sendCommand_snd_spec, if_neg]
  rintro ⟨-, -, hz, -⟩
  refine hz ⟨processedVelocity_zero, rfl, ?_, processedAngle_zero⟩
  simp [angleChanged, angleEpsilon, processedAngle_zero, draggingIdleState,
    sessionState, freshEnabled, initialState]

/-- Claim C8 (amended): the cache survives exactly the failures that
`_sendCommand`'s `try/catch` can see.  A synchronous throw of
`hass.callService` leaves the whole state unmodified; but the call is
not awaited, so when it returns a promise that only later rejects
(`asyncError`) the cache is updated immediately, just as on success. -/
theorem cache_update_amended (s : CardState) (v a : ℚ) (now : ℤ) :
    (sendCommand s v a now .syncError).1 = s
      ∧ ((sendCommand s v a now .asyncError).2 ≠ none →
          (sendCommand s v a now .asyncError).1 =
            { s with lastAngle := some (processedAngle a),
                     lastVelocity := some (processedVelocity v),
                     lastSendTime := now }) := by
  constructor
  · rw [sendCommand_fst_spec, if_neg]
    rintro ⟨-, hne⟩
    exact hne rfl
  · intro h
    rw [sendCommand_fst_spec,
      if_pos ⟨sendCommand_sent_admitted s v a now .asyncError h, by simp⟩]

/-- Witness for the amended C8: at a concrete invocation, a synchronous
throw leaves the state untouched while an asynchronously failing call
does not. -/
theorem cache_update_amended_witness :
    (sendCommand freshEnabled (1 / 2) 0 100 .syncError).1 = freshEnabled
      ∧ (sendCommand freshEnabled (1 / 2) 0 100 .asyncError).1 ≠ freshEnabled := by
  have hadm := sendAdmitted_of_empty_cache freshEnabled (1 / 2) 0 100 rfl rfl rfl
  have hsent : (sendCommand freshEnabled (1 / 2) 0 100 .asyncError).2 ≠ none := by
    rw [sendCommand_snd_spec, if_pos hadm]
    exact Option.some_ne_none _
  refine ⟨(cache_update_amended freshEnabled (1 / 2) 0 100).1, ?_⟩
  rw [(cache_update_amended freshEnabled (1 / 2) 0 100).2 hsent]
  intro heq
  have := congrArg CardState.lastAngle heq
  simp [freshEnabled, initialState] at this

/-- Counterexample to C8 as stated: an invocation whose remote call
*returns an error* (a rejected promise, `asyncError`) still transmits
and still updates the `SentCommandCache`. -/
theorem cache_update_counterexample :
    (sendCommand freshEnabled (1 / 2) 0 100 .asyncError).2 = some (1 / 2, 0)
      ∧ (sendCommand freshEnabled (1 / 2) 0 100 .asyncError).1 ≠ freshEnabled := by
  have hadm := sendAdmitted_of_empty_cache freshEnabled (1 / 2) 0 100 rfl rfl rfl
  constructor
  · rw [sendCommand_snd_spec, if_pos hadm, processedVelocity_half,
      processedAngle_zero]
  · rw [sendCommand_fst_spec, if_pos ⟨hadm, by simp⟩]
    intro heq
    have := congrArg CardState.lastAngle heq
    simp [freshEnabled, initialState] at this


/-- Claim C6 (amended): a poll tick that locates the manual-control
switch always ends with the toggling indicator cleared — even when the
observed value equals the cached one, where the code's second branch
(lines 790-794) clears `_isTogglingManualControl` explicitly.  The
pending state persists (and indeed has no timeout) only across polls
that fail to locate the switch entity. -/
theorem pending_toggle_poll_amended (s : CardState) (v : Bool)
    (hh : s.hassAvailable = true) (hc : s.configEntitySet = true) :
    (pollTick s (some v)).toggling = false ∧ pollTick s none = s := by
  have hgate : ¬ (s.hassAvailable = false ∨ s.configEntitySet = false) := by
    simp [hh, hc]
  constructor
  · rw [pollTick, if_neg hgate, findAndSetManualControlState, if_neg hgate]
    split_ifs with h1 h2
    · rfl
    · rfl
    · simpa using h2
  · rw [pollTick, if_neg hgate, findAndSetManualControlState, if_neg hgate]

/-- Witness for the amended C6 at a concrete pending state. -/
theorem pending_toggle_poll_amended_witness :
    (pollTick togglingDisabledState (some false)).toggling = false
      ∧ pollTick togglingDisabledState none = togglingDisabledState :=
  pending_toggle_poll_amended togglingDisabledState false rfl rfl

/-- Counterexample to C6 as stated: in `PendingToggle` (enable requested
while disabled), a poll observing the *unchanged* value `false` clears
the toggling indicator instead of leaving the state pending. -/
theorem pending_toggle_poll_counterexample :
    togglingDisabledState.toggling = true
      ∧ togglingDisabledState.enabled = false
      ∧ (pollTick togglingDisabledState (some false)).toggling = false := by
  refine ⟨by decide, by decide, ?_⟩
  rw [pollTick, if_neg (by decide), findAndSetManualControlState,
    if_neg (by decide)]
  rw [if_neg (by decide), if_pos (by decide)]

/-- Claim C7: a user toggle request (a click on the control button)
arriving while a toggle is already pending is ignored: the button is
rendered with the `loading` class whose `pointer-events: none` style
drops the click, so no `set_manual_control_state` call is issued and
the state is left unchanged. -/
theorem toggle_ignored_while_pending (s : CardState) (h : s.toggling = true) :
    clickManualControlButton s = (s, []) := by
  rw [clickManualControlButton, if_pos h]

/-- Witness for C7 at a concrete pending state. -/
theorem toggle_ignored_while_pending_witness :
    clickManualControlButton togglingDisabledState = (togglingDisabledState, []) :=
  toggle_ignored_while_pending togglingDisabledState rfl

/-- Claim C9 (amended): the mode partition holds with the strict
thresholds the code actually tests (`>` rather than `≥` against the
deadzone) and with the translation branch taking precedence:
(a) `|y| > deadzone` and `|x| < 1.5 · deadzone` give pure translation,
`angle = 0`; (b) `|x| > deadzone` and `|y| < 1.5 · deadzone` give pure
rotation `velocity = 0, angle = ±90` only when the translation branch
does not apply. -/
theorem mode_partition_amended (f : ℚ → ℚ → ℚ) (g : ℚ → ℚ) (x y : ℚ) :
    (deadzone < |y| → |x| < deadzone * (3 / 2) →
      (calculateMovement f g x y).2 = 0)
    ∧ (deadzone < |x| → |y| < deadzone * (3 / 2) →
        ¬ (deadzone < |y| ∧ |x| < deadzone * (3 / 2)) →
        calculateMovement f g x y = (0, if 0 < x then 90 else -90)) := by
  constructor
  · intro hy hx
    rw [calculateMovement]
    simp only
    rw [if_neg, if_pos ⟨hy, hx⟩]
    rintro ⟨-, hy2⟩
    exact absurd hy2 (not_lt.mpr hy.le)
  · intro hx hy hnv
    rw [calculateMovement]
    simp only
    rw [if_neg, if_neg hnv, if_pos ⟨hx, hy⟩]
    rintro ⟨hx2, -⟩
    exact absurd hx2 (not_lt.mpr hx.le)

/-- Witness for the amended C9: `(0.1, 0.5)` is pure translation with
angle `0`; `(0.5, 0.1)` is pure rotation `(0, 90)`. -/
theorem mode_partition_amended_witness :
    (calculateMovement atan2DegZero sqrtZero (1 / 10) (1 / 2)).2 = 0
      ∧ calculateMovement atan2DegZero sqrtZero (1 / 2) (1 / 10) = (0, 90) := by
  constructor
  · exact (mode_partition_amended atan2DegZero sqrtZero (1 / 10) (1 / 2)).1
      (by norm_num [deadzone, abs_of_nonneg]) (by norm_num [deadzone, abs_of_nonneg])
  · have h := (mode_partition_amended atan2DegZero sqrtZero (1 / 2) (1 / 10)).2
      (by norm_num [deadzone, abs_of_nonneg]) (by norm_num [deadzone, abs_of_nonneg])
      (by norm_num [deadzone, abs_of_nonneg])
    rw [h, if_pos (by norm_num)]

/-- Counterexample to C9 as stated: with `deadzone = 0.15`, the input
`(x, y) = (0.2, 0.15)` satisfies `|y| ≥ deadzone` and
`|x| < 1.5 · deadzone` yet yields `angle = 90`, not `0` (the code tests
`|y| > deadzone` strictly); and `(x, y) = (0.2, 0.2)` satisfies
`|x| ≥ deadzone` and `|y| < 1.5 · deadzone` yet yields a nonzero
velocity (the translation branch wins).  Both inputs stay clear of the
combined-movement branch, so the oracle values are irrelevant. -/
theorem mode_partition_counterexample :
    (deadzone ≤ |(15 : ℚ) / 100| ∧ |(2 : ℚ) / 10| < deadzone * (3 / 2)
      ∧ (calculateMovement atan2DegZero sqrtZero (2 / 10) (15 / 100)).2 = 90)
    ∧ (deadzone ≤ |(2 : ℚ) / 10| ∧ |(2 : ℚ) / 10| < deadzone * (3 / 2)
      ∧ (calculateMovement atan2DegZero sqrtZero (2 / 10) (2 / 10)).1 ≠ 0) := by
  constructor
  · refine ⟨by norm_num [deadzone, abs_of_nonneg],
      by norm_num [deadzone, abs_of_nonneg], ?_⟩
    rw [calculateMovement]
    simp only
    rw [if_neg (by norm_num [deadzone, abs_of_nonneg]),
      if_neg (by norm_num [deadzone, abs_of_nonneg]),
      if_pos (by norm_num [deadzone, abs_of_nonneg])]
    norm_num
  · refine ⟨by norm_num [deadzone, abs_of_nonneg],
      by norm_num [deadzone, abs_of_nonneg], ?_⟩
    rw [calculateMovement]
    simp only
    rw [if_neg (by norm_num [deadzone, abs_of_nonneg]),
      if_pos (by norm_num [deadzone, abs_of_nonneg])]
    norm_num [normalizeAxisValue, clampVelocity, deadzone, speed, abs_of_nonneg]

end ValetudoCard
